import Mathlib

/-!
Shallow embedding of the Project-H chat backend's chat core: the Mongo
document shapes (`Message`, `PrivateChat`, `ChatGroup`, `ChatNotification`,
`UserPresence`), the HTTP controllers (`messageController.js`,
`groupController.js`) and the realtime socket handlers (`setupSocket.js`).
Identities, document ids and timestamps are modelled as `Nat`; Mongo
collections as Lean lists; a controller returning a 4xx/5xx response is an
`Except.error` carrying the error kind and message, in which case no state
change was persisted.  Mongo `_id` values are unique per collection, so a
`doc.save()` write-back is modelled as a map over the collection replacing
the document with that id.
-/

namespace ProjectH

/-- A user account as far as the chat core reads it: the Mongo `_id` and the
`username` used in notification texts. -/
structure UserRec where
  uid : Nat
  username : String
deriving DecidableEq

/-- An attachment as persisted on a message: the four fields every send path
keeps (`type`, `url`, `name`, `size`). -/
structure Attachment where
  atype : String
  url : String
  name : String
  size : Nat
deriving DecidableEq

/-- One entry of a message's `readBy` list: `{user, readAt}`. -/
structure ReadReceipt where
  user : Nat
  readAt : Nat
deriving DecidableEq

/-- The `Message` document.  `recipient` is set for private messages,
`group` for group messages, discriminated by `chatType`. -/
structure Message where
  mid : Nat
  sender : Nat
  recipient : Option Nat
  group : Option Nat
  text : String
  chatType : String
  participants : List Nat
  attachments : List Attachment
  readBy : List ReadReceipt
  createdAt : Nat
deriving DecidableEq

/-- The cached last-message preview on a chat or group:
`{text, sender, sentAt}`. -/
structure LastMessage where
  text : String
  sender : Nat
  sentAt : Nat
deriving DecidableEq

/-- Per-participant status record on a `PrivateChat`:
`{user, lastRead, isBlocked}`. -/
structure ParticipantStatus where
  user : Nat
  lastRead : Nat
  isBlocked : Bool
deriving DecidableEq

/-- The `PrivateChat` document. -/
structure PrivateChat where
  pcId : Nat
  participants : List Nat
  participantStatus : List ParticipantStatus
  lastMessage : Option LastMessage
  isActive : Bool
deriving DecidableEq

/-- A member entry of a `ChatGroup`: `{user, role, joinedAt, lastRead}`. -/
structure GroupMember where
  user : Nat
  role : String
  joinedAt : Nat
  lastRead : Nat
deriving DecidableEq

/-- Group settings: `{sendMessages, addMembers, removeMembers, isDiscoverable}`. -/
structure GroupSettings where
  sendMessages : String
  addMembers : String
  removeMembers : String
  isDiscoverable : Bool
deriving DecidableEq

/-- The `ChatGroup` document. -/
structure ChatGroup where
  gid : Nat
  name : String
  description : String
  creator : Nat
  members : List GroupMember
  settings : GroupSettings
  isActive : Bool
  lastMessage : Option LastMessage
deriving DecidableEq

/-- The `ChatNotification` document (fields the chat core writes). -/
structure ChatNotification where
  recipient : Nat
  ntype : String
  sender : Option Nat
  message : Option Nat
  chatRefId : Option Nat
  chatRefModel : Option String
  chatRefName : Option String
  contentText : String
  contentPreview : String
  read : Bool
  readAt : Option Nat
deriving DecidableEq

/-- The durable stores the chat controllers touch. -/
structure ChatState where
  users : List UserRec
  privateChats : List PrivateChat
  groups : List ChatGroup
  messages : List Message
  notifications : List ChatNotification
deriving DecidableEq

/-- HTTP error responses of the controllers: 400 validation, 404 not-found,
403 forbidden, 500 server error.  The socket handlers emit a single `error`
event; we keep the same classification by message. -/
inductive ApiError where
  | validation (msg : String)
  | notFound (msg : String)
  | forbidden (msg : String)
  | server (msg : String)
deriving DecidableEq

/-- Mongo `User.findById`. -/
def findUser (st : ChatState) (userId : Nat) : Option UserRec :=
  st.users.find? (fun u => u.uid == userId)

/-- Notification preview text: `text.length > 50 ? text.substring(0,50)+"..." : text`. -/
def msgPreview (text : String) : String :=
  if text.length > 50 then text.take 50 ++ "..." else text

/-- Modelled from the spec: the `PrivateChat` model file (which defines the
`isBlocked` method used by both send paths) is not among the provided
sources, only its callers are.  Per the spec the per-participant status
record carries an `isBlocked` flag and "the block check is directional:
block set by recipient against sender", and the chat-list formatter reads
`userStatus.isBlocked` as "I blocked the other" and `otherStatus.isBlocked`
as "they blocked me"; so `c.isBlocked u` holds when the participant-status
entry of `u` has its `isBlocked` flag set, meaning `u` has blocked the
other participant. -/
def PrivateChat.isBlocked (c : PrivateChat) (u : Nat) : Bool :=
  match c.participantStatus.find? (fun s => s.user == u) with
  | some s => s.isBlocked
  | none => false

/-- `fixAttachmentUrls` of `messageController.js`: returns the attachments
unchanged (it logs the url and rewrites it with its own value). -/
def fixAttachmentUrls (attachments : List Attachment) : List Attachment :=
  if attachments.isEmpty then attachments
  else attachments.map (fun att => { att with url := att.url })

/-- The `.map(att => ({type, url, name, size}))` projection every send path
applies to the attachments before persisting. -/
def pickAttachmentFields (attachments : List Attachment) : List Attachment :=
  attachments.map (fun att => ⟨att.atype, att.url, att.name, att.size⟩)

/-- `messageController.sendMessage`: the HTTP send endpoint for both chat
types.  Mongo ids are modelled as opaque always-present values, so the
`!chatId` half of the first guard is dropped. -/
def sendMessage (st : ChatState) (userId chatId : Nat) (chatType : String)
    (text : String) (attachments : List Attachment) (now freshId : Nat) :
    Except ApiError ChatState :=
  if chatType = "" then
    Except.error (ApiError.validation "Chat ID and chat type are required")
  else if text = "" ∧ attachments = [] then
    Except.error (ApiError.validation "Message must contain either text or attachments")
  else if chatType ≠ "private" ∧ chatType ≠ "group" then
    Except.error (ApiError.validation "Chat type must be private or group")
  else
    match findUser st userId with
    | none => Except.error (ApiError.notFound "User not found")
    | some user =>
      if chatType = "private" then
        match st.privateChats.find? (fun c =>
            c.pcId == chatId && c.participants.contains userId && c.isActive) with
        | none => Except.error (ApiError.notFound "Chat not found or you are not a participant")
        | some chat =>
          match chat.participants.find? (fun i => i != userId) with
          | none => Except.error (ApiError.validation "Could not determine recipient")
          | some recipientId =>
            if chat.isBlocked recipientId then
              Except.error (ApiError.forbidden "You cannot send messages to this user")
            else
              let message : Message :=
                { mid := freshId, sender := userId, recipient := some recipientId,
                  group := none, text := text, chatType := "private",
                  participants := chat.participants,
                  attachments := pickAttachmentFields (fixAttachmentUrls attachments),
                  readBy := [⟨userId, now⟩], createdAt := now }
              let notification : ChatNotification :=
                { recipient := recipientId, ntype := "new_message", sender := some userId,
                  message := some freshId, chatRefId := some chat.pcId,
                  chatRefModel := some "PrivateChat", chatRefName := none,
                  contentText := user.username ++ " sent you a message",
                  contentPreview := msgPreview text, read := false, readAt := none }
              Except.ok { st with
                messages := st.messages ++ [message],
                privateChats := st.privateChats.map (fun c =>
                  if c.pcId == chat.pcId then
                    { c with lastMessage := some ⟨text, userId, now⟩ } else c),
                notifications := st.notifications ++ [notification] }
      else
        match st.groups.find? (fun g =>
            g.gid == chatId && g.members.any (fun m => m.user == userId) && g.isActive) with
        | none => Except.error (ApiError.notFound "Group not found or you are not a member")
        | some group =>
          match group.members.find? (fun m => m.user == userId) with
          | none => Except.error (ApiError.server "Error sending message")
          | some userMember =>
            if userMember.role == "admin" || group.settings.sendMessages == "all_members" then
              let memberIds := group.members.map (fun m => m.user)
              let message : Message :=
                { mid := freshId, sender := userId, recipient := none,
                  group := some chatId, text := text, chatType := "group",
                  participants := memberIds,
                  attachments := pickAttachmentFields (fixAttachmentUrls attachments),
                  readBy := [⟨userId, now⟩], createdAt := now }
              let notifs : List ChatNotification :=
                (memberIds.filter (fun i => i != userId)).map (fun memberId =>
                  { recipient := memberId, ntype := "new_message", sender := some userId,
                    message := some freshId, chatRefId := some group.gid,
                    chatRefModel := some "ChatGroup", chatRefName := some group.name,
                    contentText := user.username ++ " sent a message in " ++ group.name,
                    contentPreview := msgPreview text, read := false, readAt := none })
              Except.ok { st with
                messages := st.messages ++ [message],
                groups := st.groups.map (fun g =>
                  if g.gid == group.gid then
                    { g with lastMessage := some ⟨text, userId, now⟩ } else g),
                notifications := st.notifications ++ notifs }
            else
              Except.error (ApiError.forbidden "You do not have permission to send messages in this group")

/-- In-memory realtime environment at emit time: the `activeUsers` map
(userId to socketId) and, for each live socket, the set of rooms it has
joined (`io.sockets.sockets.get(sid).rooms`).  A socket id absent from
`socketRooms` is a stale entry (`io.sockets.sockets.get` returns
undefined). -/
structure RtEnv where
  activeUsers : List (Nat × Nat)
  socketRooms : List (Nat × List String)
deriving DecidableEq

/-- `activeUsers.get(userId)`. -/
def RtEnv.socketOf (e : RtEnv) (userId : Nat) : Option Nat :=
  (e.activeUsers.find? (fun p => p.fst == userId)).map (fun p => p.snd)

/-- `io.sockets.sockets.get(sid)?.rooms`. -/
def RtEnv.liveRooms (e : RtEnv) (sid : Nat) : Option (List String) :=
  (e.socketRooms.find? (fun p => p.fst == sid)).map (fun p => p.snd)

/-- The notification guard both socket send handlers use: recipient has an
entry in `activeUsers`, that socket is live, and it is not joined to the
room. -/
def rtShouldNotify (e : RtEnv) (recipientId : Nat) (roomId : String) : Bool :=
  match e.socketOf recipientId with
  | some sid =>
    match e.liveRooms sid with
    | some rooms => !(rooms.contains roomId)
    | none => false
  | none => false

/-- The `private:message` socket handler.  Its input guard
`!roomId || !text || !recipientId || !chatId` rejects the empty string in
`roomId`/`text`; ids are modelled as opaque always-present values. -/
def socketPrivateMessage (st : ChatState) (env : RtEnv) (senderId : Nat)
    (senderName : String) (roomId : String) (recipientId : Nat) (text : String)
    (chatId : Nat) (attachments : List Attachment) (now freshId : Nat) :
    Except ApiError ChatState :=
  if roomId = "" ∨ text = "" then
    Except.error (ApiError.validation "Invalid message data")
  else
    match st.privateChats.find? (fun c => c.pcId == chatId) with
    | none => Except.error (ApiError.notFound "Chat not found")
    | some chat =>
      if chat.isBlocked recipientId then
        Except.error (ApiError.forbidden "You cannot send messages to this user")
      else
        let message : Message :=
          { mid := freshId, sender := senderId, recipient := some recipientId,
            group := none, text := text, chatType := "private",
            participants := [senderId, recipientId],
            attachments := pickAttachmentFields attachments,
            readBy := [⟨senderId, now⟩], createdAt := now }
        let newNotifs : List ChatNotification :=
          if rtShouldNotify env recipientId roomId then
            [{ recipient := recipientId, ntype := "new_message", sender := some senderId,
               message := some freshId, chatRefId := some chat.pcId,
               chatRefModel := some "PrivateChat", chatRefName := none,
               contentText := senderName ++ " sent you a message",
               contentPreview := msgPreview text, read := false, readAt := none }]
          else []
        Except.ok { st with
          messages := st.messages ++ [message],
          privateChats := st.privateChats.map (fun c =>
            if c.pcId == chat.pcId then
              { c with lastMessage := some ⟨text, senderId, now⟩ } else c),
          notifications := st.notifications ++ newNotifs }

/-- The `group:message` socket handler. -/
def socketGroupMessage (st : ChatState) (env : RtEnv) (senderId : Nat)
    (senderName : String) (roomId : String) (groupId : Nat) (text : String)
    (attachments : List Attachment) (now freshId : Nat) :
    Except ApiError ChatState :=
  if roomId = "" ∨ text = "" then
    Except.error (ApiError.validation "Invalid message data")
  else
    match st.groups.find? (fun g =>
        g.gid == groupId && g.members.any (fun m => m.user == senderId) && g.isActive) with
    | none => Except.error (ApiError.notFound "Group not found or you are not a member")
    | some group =>
      match group.members.find? (fun m => m.user == senderId) with
      | none => Except.error (ApiError.server "Failed to send message")
      | some userMember =>
        if userMember.role == "admin" || group.settings.sendMessages == "all_members" then
          let memberIds := group.members.map (fun m => m.user)
          let message : Message :=
            { mid := freshId, sender := senderId, recipient := none,
              group := some groupId, text := text, chatType := "group",
              participants := memberIds,
              attachments := pickAttachmentFields attachments,
              readBy := [⟨senderId, now⟩], createdAt := now }
          let newNotifs : List ChatNotification :=
            (memberIds.filter (fun i => i != senderId)).filterMap (fun memberId =>
              if rtShouldNotify env memberId roomId then
                some { recipient := memberId, ntype := "new_message", sender := some senderId,
                       message := some freshId, chatRefId := some groupId,
                       chatRefModel := some "ChatGroup", chatRefName := some group.name,
                       contentText := senderName ++ " sent a message in " ++ group.name,
                       contentPreview := msgPreview text, read := false, readAt := none }
              else none)
          Except.ok { st with
            messages := st.messages ++ [message],
            groups := st.groups.map (fun g =>
              if g.gid == group.gid then
                { g with lastMessage := some ⟨text, senderId, now⟩ } else g),
            notifications := st.notifications ++ newNotifs }
        else
          Except.error (ApiError.forbidden "You do not have permission to send messages in this group")

/-- `messageController.markAsRead`: idempotent append of a read receipt to a
single message. -/
def markAsRead (st : ChatState) (userId messageId now : Nat) :
    Except ApiError ChatState :=
  match findUser st userId with
  | none => Except.error (ApiError.notFound "User not found")
  | some _ =>
    match st.messages.find? (fun m =>
        m.mid == messageId && m.participants.contains userId) with
    | none => Except.error (ApiError.notFound "Message not found or you are not a participant")
    | some msg =>
      if msg.readBy.any (fun r => r.user == userId) then Except.ok st
      else
        Except.ok { st with messages := st.messages.map (fun m =>
          if m.mid == msg.mid then { m with readBy := m.readBy ++ [⟨userId, now⟩] } else m) }

/-- `participantStatus.find(s => s.user === me).lastRead = now` on the first
matching entry (Mongoose mutates the first array hit and saves). -/
def stampStatusRead (userId now : Nat) : List ParticipantStatus → List ParticipantStatus
  | [] => []
  | s :: rest =>
    if s.user == userId then { s with lastRead := now } :: rest
    else s :: stampStatusRead userId now rest

/-- `members[findIndex(...)].lastRead = now` on the first matching entry. -/
def stampMemberRead (userId now : Nat) : List GroupMember → List GroupMember
  | [] => []
  | m :: rest =>
    if m.user == userId then { m with lastRead := now } :: rest
    else m :: stampMemberRead userId now rest

/-- `messageController.markAllAsRead`.  Note the Mongo query it builds for
private chats constrains `chatType`, membership and unread-ness, plus
`$or: [{sender: me}, {recipient: me}]` — it never mentions `chatId`; only
the group branch adds `query.group = chatId`. -/
def markAllAsRead (st : ChatState) (userId chatId : Nat) (chatType : String)
    (now : Nat) : Except ApiError ChatState :=
  if chatType = "" then
    Except.error (ApiError.validation "Chat ID and chat type are required")
  else if chatType ≠ "private" ∧ chatType ≠ "group" then
    Except.error (ApiError.validation "Chat type must be private or group")
  else
    match findUser st userId with
    | none => Except.error (ApiError.notFound "User not found")
    | some _ =>
      if chatType = "private" then
        match st.privateChats.find? (fun c =>
            c.pcId == chatId && c.participants.contains userId && c.isActive) with
        | none => Except.error (ApiError.notFound "Chat not found or you are not a participant")
        | some chat =>
          let q : Message → Bool := fun m =>
            m.chatType == "private" && m.participants.contains userId &&
            !(m.readBy.any (fun r => r.user == userId)) &&
            (m.sender == userId || m.recipient == some userId)
          Except.ok { st with
            messages := st.messages.map (fun m =>
              if q m then { m with readBy := m.readBy ++ [⟨userId, now⟩] } else m),
            privateChats := st.privateChats.map (fun c =>
              if c.pcId == chat.pcId then
                { c with participantStatus := stampStatusRead userId now c.participantStatus }
              else c),
            notifications := st.notifications.map (fun n =>
              if n.recipient == userId && !n.read && n.chatRefId == some chatId &&
                 n.chatRefModel == some "PrivateChat" then
                { n with read := true, readAt := some now } else n) }
      else
        match st.groups.find? (fun g =>
            g.gid == chatId && g.members.any (fun m => m.user == userId) && g.isActive) with
        | none => Except.error (ApiError.notFound "Chat not found or you are not a participant")
        | some group =>
          let q : Message → Bool := fun m =>
            m.chatType == "group" && m.participants.contains userId &&
            !(m.readBy.any (fun r => r.user == userId)) &&
            m.group == some chatId
          Except.ok { st with
            messages := st.messages.map (fun m =>
              if q m then { m with readBy := m.readBy ++ [⟨userId, now⟩] } else m),
            groups := st.groups.map (fun g =>
              if g.gid == group.gid then
                { g with members := stampMemberRead userId now g.members }
              else g),
            notifications := st.notifications.map (fun n =>
              if n.recipient == userId && !n.read && n.chatRefId == some chatId &&
                 n.chatRefModel == some "ChatGroup" then
                { n with read := true, readAt := some now } else n) }

/-- `findOne().sort({createdAt: -1})`: the most recent message, the earliest
listed winning ties. -/
def latestMessage (ms : List Message) : Option Message :=
  ms.foldl (fun acc m =>
    match acc with
    | none => some m
    | some b => if m.createdAt > b.createdAt then some m else some b) none

/-- `messageController.deleteMessage`: only the sender may delete; then the
owning chat's or group's cached `lastMessage` is recomputed from the most
recent remaining message — but only in the branch where such a message
exists (`if (lastMessage) { ... }`); when none remains the cache is left
untouched.  The private-side recompute query is
`{participants: {$all: message.participants}, _id: {$ne: messageId}}`,
with no `chatType` constraint. -/
def deleteMessage (st : ChatState) (userId messageId : Nat) :
    Except ApiError ChatState :=
  match findUser st userId with
  | none => Except.error (ApiError.notFound "User not found")
  | some _ =>
    match st.messages.find? (fun m => m.mid == messageId) with
    | none => Except.error (ApiError.notFound "Message not found")
    | some msg =>
      if msg.sender != userId then
        Except.error (ApiError.forbidden "You can only delete your own messages")
      else
        let remaining := st.messages.filter (fun m => m.mid != messageId)
        if msg.chatType == "private" then
          match latestMessage (remaining.filter (fun m =>
              msg.participants.all (fun p => m.participants.contains p))) with
          | some lm =>
            match st.privateChats.find? (fun c =>
                msg.participants.all (fun p => c.participants.contains p) && c.isActive) with
            | some chat =>
              Except.ok { st with
                messages := remaining,
                privateChats := st.privateChats.map (fun c =>
                  if c.pcId == chat.pcId then
                    { c with lastMessage := some ⟨lm.text, lm.sender, lm.createdAt⟩ }
                  else c) }
            | none => Except.ok { st with messages := remaining }
          | none => Except.ok { st with messages := remaining }
        else if msg.chatType == "group" then
          match msg.group with
          | some gid =>
            match latestMessage (remaining.filter (fun m => m.group == some gid)) with
            | some lm =>
              match st.groups.find? (fun g => g.gid == gid) with
              | some grp =>
                Except.ok { st with
                  messages := remaining,
                  groups := st.groups.map (fun g =>
                    if g.gid == grp.gid then
                      { g with lastMessage := some ⟨lm.text, lm.sender, lm.createdAt⟩ }
                    else g) }
              | none => Except.ok { st with messages := remaining }
            | none => Except.ok { st with messages := remaining }
          | none => Except.ok { st with messages := remaining }
        else Except.ok { st with messages := remaining }

/-- Default group settings (`ChatGroup.getDefaultSettings`). -/
def defaultSettings : GroupSettings :=
  ⟨"all_members", "admins_only", "admins_only", true⟩

/-- A partial settings object in a request body; spread over the defaults
(`{...ChatGroup.getDefaultSettings(), ...settings}`) or over the current
settings on update. -/
structure GroupSettingsPatch where
  sendMessages : Option String := none
  addMembers : Option String := none
  removeMembers : Option String := none
  isDiscoverable : Option Bool := none
deriving DecidableEq

/-- JS object spread `{...base, ...patch}` field by field. -/
def mergeSettings (base : GroupSettings) (patch : GroupSettingsPatch) : GroupSettings :=
  ⟨patch.sendMessages.getD base.sendMessages,
   patch.addMembers.getD base.addMembers,
   patch.removeMembers.getD base.removeMembers,
   patch.isDiscoverable.getD base.isDiscoverable⟩

/-- Second half of the `ChatGroupSchema.pre('save')` hook: the creator is
already a member, so force the first entry with the creator's id to role
admin. -/
def forceCreatorAdmin (creator : Nat) : List GroupMember → List GroupMember
  | [] => []
  | m :: rest =>
    if m.user == creator then { m with role := "admin" } :: rest
    else m :: forceCreatorAdmin creator rest

/-- The `ChatGroupSchema.pre('save')` hook on a new group: insert the
creator as first admin if absent, else force the creator's role to admin,
leaving other members untouched. -/
def creatorAdminHook (creator now : Nat) (ms : List GroupMember) : List GroupMember :=
  if ms.any (fun m => m.user == creator) then forceCreatorAdmin creator ms
  else ⟨creator, "admin", now, now⟩ :: ms

/-- `groupController.createGroup`: creator pushed first as admin, requested
members resolved against the `User` collection (unresolvable ids silently
dropped), creator duplicates skipped, then the pre-save hook runs. -/
def createGroup (st : ChatState) (userId : Nat) (name description : String)
    (memberIds : List Nat) (settings : GroupSettingsPatch) (now freshId : Nat) :
    Except ApiError ChatState :=
  if name = "" then Except.error (ApiError.validation "Group name is required")
  else
    match findUser st userId with
    | none => Except.error (ApiError.notFound "User not found")
    | some user =>
      let resolved := (st.users.filter (fun u => memberIds.contains u.uid)).map (fun u => u.uid)
      let groupMembers : List GroupMember :=
        ⟨userId, "admin", now, now⟩ ::
          (resolved.filter (fun i => i != userId)).map (fun i => ⟨i, "member", now, now⟩)
      let group : ChatGroup :=
        { gid := freshId, name := name, description := description, creator := userId,
          members := creatorAdminHook userId now groupMembers,
          settings := mergeSettings defaultSettings settings,
          isActive := true, lastMessage := none }
      let notifs : List ChatNotification :=
        (group.members.filter (fun m => m.user != userId)).map (fun m =>
          { recipient := m.user, ntype := "added_to_group", sender := some userId,
            message := none, chatRefId := some freshId, chatRefModel := some "ChatGroup",
            chatRefName := some name,
            contentText := user.username ++ " added you to " ++ name,
            contentPreview := if description = "" then "New group: " ++ name else description,
            read := false, readAt := none })
      Except.ok { st with
        groups := st.groups ++ [group],
        notifications := st.notifications ++ notifs }

/-- `groupController.addMembers`. -/
def addMembers (st : ChatState) (userId groupId : Nat) (memberIds : List Nat)
    (now : Nat) : Except ApiError ChatState :=
  if memberIds = [] then
    Except.error (ApiError.validation "Members array is required and cannot be empty")
  else
    match findUser st userId with
    | none => Except.error (ApiError.notFound "User not found")
    | some user =>
      match st.groups.find? (fun g =>
          g.gid == groupId && g.members.any (fun m => m.user == userId) && g.isActive) with
      | none => Except.error (ApiError.notFound "Group not found or you are not a member")
      | some group =>
        match group.members.find? (fun m => m.user == userId) with
        | none => Except.error (ApiError.server "Error adding members to group")
        | some userMember =>
          if userMember.role == "admin" || group.settings.addMembers == "all_members" then
            let existing := group.members.map (fun m => m.user)
            let newIds := memberIds.filter (fun i => !(existing.contains i))
            if newIds = [] then
              Except.error (ApiError.validation "All provided members are already in the group")
            else
              let newUsers := st.users.filter (fun u => newIds.contains u.uid)
              let members2 := group.members ++
                newUsers.map (fun u => (⟨u.uid, "member", now, now⟩ : GroupMember))
              let addNotifs : List ChatNotification := newUsers.map (fun u =>
                { recipient := u.uid, ntype := "added_to_group", sender := some userId,
                  message := none, chatRefId := some group.gid,
                  chatRefModel := some "ChatGroup", chatRefName := some group.name,
                  contentText := user.username ++ " added you to " ++ group.name,
                  contentPreview := if group.description = "" then "Group: " ++ group.name
                    else group.description,
                  read := false, readAt := none })
              let aggNotifs : List ChatNotification :=
                (members2.filter (fun m =>
                    !(m.user == userId) && !(newIds.contains m.user))).map (fun m =>
                  { recipient := m.user, ntype := "group_members_added", sender := some userId,
                    message := none, chatRefId := some group.gid,
                    chatRefModel := some "ChatGroup", chatRefName := some group.name,
                    contentText := user.username ++ " added " ++ toString newUsers.length ++
                      " new members to " ++ group.name,
                    contentPreview := "New members: " ++
                      (String.intercalate ", " (newUsers.map (fun u => u.username))).take 50,
                    read := false, readAt := none })
              Except.ok { st with
                groups := st.groups.map (fun g =>
                  if g.gid == group.gid then { g with members := members2 } else g),
                notifications := st.notifications ++ addNotifs ++ aggNotifs }
          else
            Except.error (ApiError.forbidden "You do not have permission to add members to this group")

/-- The member with minimal `joinedAt`, earliest listed winning ties
(`[...members].sort((a,b) => a.joinedAt - b.joinedAt)[0]` — JS sort is
stable). -/
def minJoinedAt (ms : List GroupMember) : Option GroupMember :=
  ms.foldl (fun acc m =>
    match acc with
    | none => some m
    | some b => if m.joinedAt < b.joinedAt then some m else some b) none

/-- In-place promotion of the first member with the given `joinedAt`
(the sorted copy shares its member objects with the live array, so the
mutation `oldestMember.role = 'admin'` lands on that element). -/
def promoteFirstWithJoin (j : Nat) : List GroupMember → List GroupMember
  | [] => []
  | m :: rest =>
    if m.joinedAt == j then { m with role := "admin" } :: rest
    else m :: promoteFirstWithJoin j rest

/-- Promote the earliest-joined member to admin (removeMember's
auto-promotion). -/
def promoteEarliest (ms : List GroupMember) : List GroupMember :=
  match minJoinedAt ms with
  | none => ms
  | some b => promoteFirstWithJoin b.joinedAt ms

/-- In-place promotion of the first non-actor member with the given
`joinedAt` (leaveGroup promotes before removing the actor). -/
def promoteFirstWithJoinExcept (actor j : Nat) : List GroupMember → List GroupMember
  | [] => []
  | m :: rest =>
    if m.user != actor && m.joinedAt == j then { m with role := "admin" } :: rest
    else m :: promoteFirstWithJoinExcept actor j rest

/-- Promote the earliest-joined member other than the actor. -/
def promoteEarliestExcept (actor : Nat) (ms : List GroupMember) : List GroupMember :=
  match minJoinedAt (ms.filter (fun m => m.user != actor)) with
  | none => ms
  | some b => promoteFirstWithJoinExcept actor b.joinedAt ms

/-- Username of a member id as the populated documents render it. -/
def usernameOf (st : ChatState) (userId : Nat) : String :=
  match findUser st userId with
  | some u => u.username
  | none => ""

/-- `groupController.removeMember`.  Self-removal is always permitted;
removing another member requires the actor to be admin and the target to
not be an admin.  The auto-promotion of the earliest-joined member when no
admin remains runs only in the `!isSelfRemoval` branch. -/
def removeMember (st : ChatState) (userId groupId memberId : Nat) (_now : Nat) :
    Except ApiError ChatState :=
  match findUser st userId with
  | none => Except.error (ApiError.notFound "User not found")
  | some user =>
    match st.groups.find? (fun g =>
        g.gid == groupId && g.members.any (fun m => m.user == userId) && g.isActive) with
    | none => Except.error (ApiError.notFound "Group not found or you are not a member")
    | some group =>
      let isSelfRemoval := memberId == userId
      let authFail : Option ApiError :=
        if isSelfRemoval then none
        else
          match group.members.find? (fun m => m.user == userId) with
          | none => some (ApiError.forbidden "Only group admins can remove other members")
          | some userMember =>
            if userMember.role != "admin" then
              some (ApiError.forbidden "Only group admins can remove other members")
            else
              match group.members.find? (fun m => m.user == memberId) with
              | some target =>
                if target.role == "admin" then
                  some (ApiError.forbidden "Cannot remove an admin from the group")
                else none
              | none => none
      match authFail with
      | some e => Except.error e
      | none =>
        match group.members.findIdx? (fun m => m.user == memberId) with
        | none => Except.error (ApiError.notFound "Member not found in this group")
        | some memberIndex =>
          let removedMember := group.members.getD memberIndex ⟨0, "", 0, 0⟩
          let members1 := group.members.eraseIdx memberIndex
          let members2 :=
            if !isSelfRemoval then
              if !(members1.any (fun m => m.role == "admin")) && !(members1 == []) then
                promoteEarliest members1
              else members1
            else members1
          let newActive := if members2 = [] then false else group.isActive
          let removedName := usernameOf st removedMember.user
          let removalNotifs : List ChatNotification :=
            if !isSelfRemoval then
              [{ recipient := removedMember.user, ntype := "group_removed",
                 sender := some userId, message := none, chatRefId := some group.gid,
                 chatRefModel := some "ChatGroup", chatRefName := some group.name,
                 contentText := user.username ++ " removed you from " ++ group.name,
                 contentPreview := "You were removed from the group: " ++ group.name,
                 read := false, readAt := none }]
            else []
          let leftNotifs : List ChatNotification := members2.map (fun m =>
            { recipient := m.user, ntype := "group_member_left", sender := some userId,
              message := none, chatRefId := some group.gid,
              chatRefModel := some "ChatGroup", chatRefName := some group.name,
              contentText :=
                if isSelfRemoval then removedName ++ " left " ++ group.name
                else user.username ++ " removed " ++ removedName ++ " from " ++ group.name,
              contentPreview := "Member " ++ (if isSelfRemoval then "left" else "removed") ++
                ": " ++ removedName,
              read := false, readAt := none })
          Except.ok { st with
            groups := st.groups.map (fun g =>
              if g.gid == group.gid then
                { g with members := members2, isActive := newActive } else g),
            notifications := st.notifications ++ removalNotifs ++ leftNotifs }

/-- `groupController.changeMemberRole`. -/
def changeMemberRole (st : ChatState) (userId groupId memberId : Nat)
    (role : String) (_now : Nat) : Except ApiError ChatState :=
  if role ≠ "admin" ∧ role ≠ "member" then
    Except.error (ApiError.validation "Valid role is required (admin or member)")
  else
    match findUser st userId with
    | none => Except.error (ApiError.notFound "User not found")
    | some user =>
      match st.groups.find? (fun g =>
          g.gid == groupId && g.members.any (fun m => m.user == userId) && g.isActive) with
      | none => Except.error (ApiError.notFound "Group not found or you are not a member")
      | some group =>
        match group.members.find? (fun m => m.user == userId) with
        | none => Except.error (ApiError.forbidden "Only group admins can change member roles")
        | some userMember =>
          if userMember.role != "admin" then
            Except.error (ApiError.forbidden "Only group admins can change member roles")
          else if memberId == userId then
            Except.error (ApiError.forbidden "You cannot change your own role")
          else
            match group.members.findIdx? (fun m => m.user == memberId) with
            | none => Except.error (ApiError.notFound "Member not found in this group")
            | some memberIndex =>
              let target := group.members.getD memberIndex ⟨0, "", 0, 0⟩
              if target.role = "admin" ∧ role = "member" ∧
                  (group.members.filter (fun m => m.role == "admin")).length ≤ 1 then
                Except.error (ApiError.forbidden "Cannot demote the last admin. Promote another member to admin first")
              else
                let members2 := group.members.set memberIndex { target with role := role }
                let notif : ChatNotification :=
                  { recipient := target.user, ntype := "group_role_changed",
                    sender := some userId, message := none, chatRefId := some group.gid,
                    chatRefModel := some "ChatGroup", chatRefName := some group.name,
                    contentText := user.username ++ " changed your role in " ++
                      group.name ++ " to " ++ role,
                    contentPreview := "Your role is now: " ++ role,
                    read := false, readAt := none }
                Except.ok { st with
                  groups := st.groups.map (fun g =>
                    if g.gid == group.gid then { g with members := members2 } else g),
                  notifications := st.notifications ++ [notif] }

/-- `groupController.leaveGroup`: if the actor is the sole admin and other
members remain, the earliest-joined other member is promoted (and notified)
before the actor is removed; an emptied group is deactivated. -/
def leaveGroup (st : ChatState) (userId groupId : Nat) (_now : Nat) :
    Except ApiError ChatState :=
  match findUser st userId with
  | none => Except.error (ApiError.notFound "User not found")
  | some user =>
    match st.groups.find? (fun g =>
        g.gid == groupId && g.members.any (fun m => m.user == userId) && g.isActive) with
    | none => Except.error (ApiError.notFound "Group not found or you are not a member")
    | some group =>
      let isUserAdmin := group.members.any (fun m => m.user == userId && m.role == "admin")
      let adminCount := (group.members.filter (fun m => m.role == "admin")).length
      let promoted :=
        if isUserAdmin ∧ adminCount = 1 ∧ 1 < group.members.length then
          promoteEarliestExcept userId group.members
        else group.members
      let promoteNotifs : List ChatNotification :=
        if isUserAdmin ∧ adminCount = 1 ∧ 1 < group.members.length then
          match minJoinedAt (group.members.filter (fun m => m.user != userId)) with
          | some newAdmin =>
            [{ recipient := newAdmin.user, ntype := "admin_promotion", sender := some userId,
               message := none, chatRefId := some group.gid,
               chatRefModel := some "ChatGroup", chatRefName := some group.name,
               contentText := "You are now an admin of " ++ group.name ++ " as " ++
                 user.username ++ " left the group",
               contentPreview := "You are now a group admin",
               read := false, readAt := none }]
          | none => []
        else []
      match promoted.findIdx? (fun m => m.user == userId) with
      | none => Except.error (ApiError.notFound "You are not a member of this group")
      | some memberIndex =>
        let members2 := promoted.eraseIdx memberIndex
        let newActive := if members2 = [] then false else group.isActive
        let leftNotifs : List ChatNotification := members2.map (fun m =>
          { recipient := m.user, ntype := "group_member_left", sender := some userId,
            message := none, chatRefId := some group.gid,
            chatRefModel := some "ChatGroup", chatRefName := some group.name,
            contentText := user.username ++ " left the group " ++ group.name,
            contentPreview := user.username ++ " left the group",
            read := false, readAt := none })
        Except.ok { st with
          groups := st.groups.map (fun g =>
            if g.gid == group.gid then
              { g with members := members2, isActive := newActive } else g),
          notifications := st.notifications ++ promoteNotifs ++ leftNotifs }

/-- A `UserPresence` document (the fields the connect/disconnect handlers
touch). -/
structure PresenceRec where
  user : Nat
  status : String
  lastActive : Nat
  socketId : Option Nat
deriving DecidableEq

/-- The realtime server's mutable connection state: the two in-memory maps
plus the persisted presence records. -/
structure RtState where
  activeUsers : List (Nat × Nat)
  userSockets : List (Nat × Nat)
  presences : List PresenceRec
deriving DecidableEq

/-- `Map.set(k, v)` on an association list with at most one entry per key. -/
def mapSet (m : List (Nat × Nat)) (k v : Nat) : List (Nat × Nat) :=
  if m.any (fun p => p.fst == k) then
    m.map (fun p => if p.fst == k then (k, v) else p)
  else m ++ [(k, v)]

/-- `Map.delete(k)`. -/
def mapDelete (m : List (Nat × Nat)) (k : Nat) : List (Nat × Nat) :=
  m.filter (fun p => p.fst != k)

/-- `Map.get(k)`. -/
def mapGet (m : List (Nat × Nat)) (k : Nat) : Option Nat :=
  (m.find? (fun p => p.fst == k)).map (fun p => p.snd)

/-- The `io.on('connection')` registration: both in-memory maps are set and
the presence record is upserted to online with the new socket id. -/
def socketConnect (st : RtState) (userId sid now : Nat) : RtState :=
  { activeUsers := mapSet st.activeUsers userId sid,
    userSockets := mapSet st.userSockets sid userId,
    presences :=
      if st.presences.any (fun p => p.user == userId) then
        st.presences.map (fun p =>
          if p.user == userId then
            { p with status := "online", lastActive := now, socketId := some sid }
          else p)
      else st.presences ++ [⟨userId, "online", now, some sid⟩] }

/-- The `socket.on('disconnect')` handler: `activeUsers.delete(userId)` and
`userSockets.delete(socket.id)` run unconditionally; the presence record is
set to offline unconditionally, and only the stored `socketId` is cleared
behind the `presence.socketId === socket.id` guard. -/
def socketDisconnect (st : RtState) (userId sid now : Nat) : RtState :=
  { activeUsers := mapDelete st.activeUsers userId,
    userSockets := mapDelete st.userSockets sid,
    presences := st.presences.map (fun p =>
      if p.user == userId then
        { p with
          status := "offline",
          lastActive := now,
          socketId := if p.socketId == some sid then none else p.socketId }
      else p) }

/-- The `private:join` find-or-create over the PrivateChat store
(`findOne({participants: {$all: [me, them]}, isActive: true})`, create on
miss, then stamp the caller's `lastRead`).  On a fresh chat the stamp
rewrites the `lastRead` the constructor just set, so it is folded into the
created record. -/
def joinPrivate (chats : List PrivateChat) (userId recipientId now freshId : Nat) :
    List PrivateChat :=
  match chats.find? (fun c =>
      c.participants.contains userId && c.participants.contains recipientId && c.isActive) with
  | some chat =>
    chats.map (fun c =>
      if c.pcId == chat.pcId then
        { c with participantStatus := stampStatusRead userId now c.participantStatus }
      else c)
  | none =>
    chats ++ [{ pcId := freshId,
                participants := [userId, recipientId],
                participantStatus := [⟨userId, now, false⟩, ⟨recipientId, now, false⟩],
                lastMessage := none,
                isActive := true }]

/-- A sequence of `private:join` events (initiator, recipient) applied to an
initially empty PrivateChat store, each event completing before the next is
processed. -/
def runJoins (evs : List (Nat × Nat)) : List PrivateChat :=
  evs.foldl (fun cs e => joinPrivate cs e.fst e.snd 0 cs.length) []

/-- An active PrivateChat whose participant pair is exactly the unordered
pair `{a, b}`. -/
def pairPred (a b : Nat) (c : PrivateChat) : Bool :=
  c.isActive && (c.participants == [a, b] || c.participants == [b, a])

/-- Number of active PrivateChat documents whose participant pair is exactly
the unordered pair `{a, b}`. -/
def pairCount (cs : List PrivateChat) (a b : Nat) : Nat :=
  (cs.filter (pairPred a b)).length

/-! Concrete stores used by the witnesses and counterexamples. -/

/-- Users 1 (alice), 2 (bob), 3 (carol). -/
def exUsers : List UserRec := [⟨1, "alice"⟩, ⟨2, "bob"⟩, ⟨3, "carol"⟩]

/-- An active private chat (id 5) between users 1 and 2, no blocks. -/
def exChat12 : PrivateChat :=
  ⟨5, [1, 2], [⟨1, 0, false⟩, ⟨2, 0, false⟩], none, true⟩

/-- A second active private chat (id 6), between users 1 and 3. -/
def exChat13 : PrivateChat :=
  ⟨6, [1, 3], [⟨1, 0, false⟩, ⟨3, 0, false⟩], none, true⟩

/-- A message of chat 6, sent by user 3 and not yet read by user 1. -/
def exMsg13 : Message :=
  ⟨50, 3, some 1, none, "hello", "private", [1, 3], [], [⟨3, 7⟩], 7⟩

/-- A group (id 7) whose members are 1 (admin) and 2 (member), with default
settings. -/
def exGroup : ChatGroup :=
  ⟨7, "Team", "", 1, [⟨1, "admin", 1, 1⟩, ⟨2, "member", 2, 2⟩],
   defaultSettings, true, none⟩

/-- A store with the two private chats, the group and the unread message. -/
def exSt : ChatState := ⟨exUsers, [exChat12, exChat13], [exGroup], [exMsg13], []⟩

/-- Realtime environment: user 1 is connected (socket 11, joined to the
private room `private:1-2`); user 2 has no connection at all. -/
def exEnv : RtEnv := ⟨[(1, 11)], [(11, ["private:1-2"])]⟩

/-- An example attachment. -/
def exAtt : Attachment := ⟨"image", "http://h/p.png", "p.png", 10⟩

/-- The only message of chat 5 (sent by 1), with the chat's cache pointing
at it. -/
def exMsgOnly : Message :=
  ⟨51, 1, some 2, none, "hi", "private", [1, 2], [], [⟨1, 7⟩], 7⟩

/-- Chat 5 with its `lastMessage` cache filled from `exMsgOnly`. -/
def exChatCached : PrivateChat :=
  ⟨5, [1, 2], [⟨1, 0, false⟩, ⟨2, 0, false⟩], some ⟨"hi", 1, 7⟩, true⟩

/-- Store for the delete-the-only-message scenario. -/
def exSt6 : ChatState := ⟨exUsers, [exChatCached], [], [exMsgOnly], []⟩

/-- Chat 5 where user 2's status record has `isBlocked` set (2 has blocked
1). -/
def exChatBlocked : PrivateChat :=
  ⟨5, [1, 2], [⟨1, 0, false⟩, ⟨2, 0, true⟩], none, true⟩

/-- Store for the directional-block scenario. -/
def exStBlocked : ChatState := ⟨exUsers, [exChatBlocked], [], [], []⟩

/-- Store with only the three users — the starting point of the group
state-machine scenario. -/
def exSt0 : ChatState := ⟨exUsers, [], [], [], []⟩

/-- An older message of chat 5 (sent by 1 at time 5). -/
def exMsgOld : Message :=
  ⟨52, 1, some 2, none, "old", "private", [1, 2], [], [⟨1, 5⟩], 5⟩

/-- Store where chat 5 holds two messages (51 newest, 52 older) and the
cache points at the newest. -/
def exSt6b : ChatState := ⟨exUsers, [exChatCached], [], [exMsgOnly, exMsgOld], []⟩

/-! Theorems. -/

/-- C2: the admin invariant fails on the code.  User 1 creates group "Team"
with member 2 (so 1 is admin, 2 is member); 1 then removes themself through
`removeMember` (self-removal).  The auto-promotion runs only in the
non-self-removal branch, so the result is a group with one member, zero
admins, and `isActive` still true — contradicting the claim that a group
with ≥ 1 member always keeps at least one admin. -/
theorem claim_C2_code_bug :
    ((createGroup exSt0 1 "Team" "" [2] {} 10 100).bind
      (fun st1 => removeMember st1 1 100 1 20)).map
      (fun st => st.groups.map (fun g =>
        (g.members.map (fun m => (m.user, m.role)), g.isActive))) =
    Except.ok [([(2, "member")], true)] := by
  rfl

/-- C4: `markAllAsRead` on private chat 5 is not scoped to chat 5.  The
store holds message 50, which belongs to chat 6 (between users 1 and 3) and
is unread by user 1; calling `markAllAsRead` for chat 5 appends user 1's
read receipt to it anyway, because the private-branch Mongo query never
constrains the chat id. -/
theorem claim_C4_code_bug :
    (markAllAsRead exSt 1 5 "private" 9).map
      (fun st => st.messages.map (fun m => (m.mid, m.readBy.map (fun r => r.user)))) =
    Except.ok [(50, [3, 1])] := by
  rfl

/-- C5 counterexample: on the realtime private path, a send with empty text
and one attachment is rejected (`!text` in the input guard), not accepted
as the claim states; the same payload succeeds on the HTTP path. -/
theorem claim_C5_counterexample :
    socketPrivateMessage exSt exEnv 1 "alice" "private:1-2" 2 "" 5 [exAtt] 9 60 =
      Except.error (ApiError.validation "Invalid message data") ∧
    socketGroupMessage exSt exEnv 1 "alice" "group:7" 7 "" [exAtt] 9 60 =
      Except.error (ApiError.validation "Invalid message data") ∧
    (sendMessage exSt 1 5 "private" "" [exAtt] 9 60).isOk = true := by
  exact ⟨rfl, rfl, rfl⟩

/-- C6 counterexample: user 1 deletes message 51, the only message of chat
5, whose cache currently points at it.  After the deletion no message
remains, yet the chat's cached `lastMessage` is not cleared to null — the
recompute only runs when a surviving message exists, so the stale preview
`⟨"hi", 1, 7⟩` is left in place. -/
theorem claim_C6_counterexample :
    (deleteMessage exSt6 1 51).map
      (fun st => (st.messages, st.privateChats.map (fun c => c.lastMessage))) =
    Except.ok ([], [some ⟨"hi", 1, 7⟩]) := by
  rfl

/-- C3 counterexample: user 1 sends over the realtime channel to user 2,
who has no live connection at all (no `activeUsers` entry).  The message is
persisted but no ChatNotification is created — the handler only writes one
when the recipient has a live socket that is outside the room, contradicting
the claim that a fully offline recipient still gets a persisted
notification. -/
theorem claim_C3_counterexample :
    (socketPrivateMessage exSt exEnv 1 "alice" "private:1-2" 2 "hi" 5 [] 9 60).map
      (fun st => (st.messages.length, st.notifications)) =
    Except.ok (2, []) := by
  rfl

/-- C1 counterexample: the same logical send (user 1 to user 2 in chat 5,
recipient offline) persists different state on the two paths: the HTTP
controller always writes a `new_message` ChatNotification for the
recipient, while the realtime handler writes none because the recipient has
no live socket. -/
theorem claim_C1_counterexample :
    (sendMessage exSt 1 5 "private" "hey" [] 9 60).map
      (fun st => st.notifications.map (fun n => (n.recipient, n.ntype))) =
      Except.ok [(2, "new_message")] ∧
    (socketPrivateMessage exSt exEnv 1 "alice" "private:1-2" 2 "hey" 5 [] 9 60).map
      (fun st => st.notifications.map (fun n => (n.recipient, n.ntype))) =
      Except.ok [] := by
  exact ⟨rfl, rfl⟩

/-- C7 counterexample: identity 7 opens socket 1, then socket 2 (so the
registry maps 7 to 2 and the presence record stores handle 2, online); the
older socket 1 then disconnects.  The stored handle (2) differs from the
disconnecting one (1), yet the registry entry for 7 is deleted and the
presence status is reset to offline — only the stored `socketId` survives
the stale disconnect. -/
theorem claim_C7_counterexample :
    (socketConnect (socketConnect ⟨[], [], []⟩ 7 1 100) 7 2 101).activeUsers = [(7, 2)] ∧
    (socketConnect (socketConnect ⟨[], [], []⟩ 7 1 100) 7 2 101).presences =
      [⟨7, "online", 101, some 2⟩] ∧
    socketDisconnect (socketConnect (socketConnect ⟨[], [], []⟩ 7 1 100) 7 2 101) 7 1 102 =
      ⟨[], [(2, 7)], [⟨7, "offline", 102, some 2⟩]⟩ := by
  exact ⟨rfl, rfl, rfl⟩


/-! C9: uniqueness of the PrivateChat per unordered pair under
`private:join` sequences. -/

/-- Stamping a chat's `participantStatus` does not change whether it counts
toward any pair. -/
theorem pairPred_stamp (a b : Nat) (chat : PrivateChat) (u now : Nat) :
    ∀ c : PrivateChat,
      pairPred a b (if c.pcId == chat.pcId then
        { c with participantStatus := stampStatusRead u now c.participantStatus }
      else c) = pairPred a b c := by
  intro c
  by_cases hc : (c.pcId == chat.pcId) = true
  · simp [hc, pairPred]
  · simp [hc, pairPred]

/-- One `private:join` step keeps every pair's active-chat count at most 1:
if the find-or-create finds a chat containing both parties it only stamps a
`lastRead`; if it creates one, the failed lookup shows no active chat with
that exact pair existed. -/
theorem joinPrivate_pairCount_le (cs : List PrivateChat) (u r now fid : Nat)
    (h : ∀ a b, pairCount cs a b ≤ 1) (a b : Nat) :
    pairCount (joinPrivate cs u r now fid) a b ≤ 1 := by
  unfold joinPrivate
  cases hfind : cs.find? (fun c =>
      c.participants.contains u && c.participants.contains r && c.isActive) with
  | some chat =>
    have heq : pairCount (cs.map (fun c =>
        if c.pcId == chat.pcId then
          { c with participantStatus := stampStatusRead u now c.participantStatus }
        else c)) a b = pairCount cs a b := by
      unfold pairCount
      rw [← List.countP_eq_length_filter, ← List.countP_eq_length_filter, List.countP_map]
      exact List.countP_congr (fun c _ => by
        simpa using congrArg (fun x => x) (pairPred_stamp a b chat u now c))
    rw [heq]
    exact h a b
  | none =>
    unfold pairCount
    set nc : PrivateChat :=
      ⟨fid, [u, r], [⟨u, now, false⟩, ⟨r, now, false⟩], none, true⟩ with hnc
    rw [List.filter_append, List.length_append]
    by_cases hn : pairPred a b nc = true
    · have hur : [u, r] = [a, b] ∨ [u, r] = [b, a] := by
        rw [hnc] at hn
        simp only [pairPred, Bool.and_eq_true, Bool.or_eq_true, beq_iff_eq] at hn
        exact hn.2
      have hcs : cs.filter (pairPred a b) = [] := by
        rw [List.filter_eq_nil_iff]
        intro c hc hpc
        have hnone := List.find?_eq_none.mp hfind c hc
        simp only [pairPred, Bool.and_eq_true, Bool.or_eq_true, beq_iff_eq] at hpc
        obtain ⟨hca, hcp⟩ := hpc
        apply hnone
        simp only [Bool.and_eq_true]
        refine ⟨⟨?_, ?_⟩, hca⟩ <;>
          (rcases hur with hur | hur <;> rcases hcp with hcp | hcp <;>
            (injection hur with h1 h2; injection h2 with h3 h4;
             subst h1; subst h3; simp [hcp]))
      rw [hcs]
      simp [List.filter_cons, hn]
    · have hz : (List.filter (pairPred a b) [nc]).length = 0 := by
        simp [List.filter_cons, hn]
      rw [hz]
      simpa using h a b

/-- The invariant survives any fold of join events. -/
theorem runJoins_invariant (evs : List (Nat × Nat)) :
    ∀ cs : List PrivateChat, (∀ a b, pairCount cs a b ≤ 1) →
      ∀ a b, pairCount (evs.foldl (fun s e => joinPrivate s e.fst e.snd 0 s.length) cs) a b ≤ 1 := by
  induction evs with
  | nil => exact fun cs h a b => h a b
  | cons e rest ih =>
    intro cs h a b
    exact ih _ (fun x y => joinPrivate_pairCount_le cs e.fst e.snd 0 cs.length h x y) a b

/-- C9: for every pair of identities `{a, b}`, after any sequence of
`private:join` events initiated by either side in any order (each processed
to completion), at most one active PrivateChat document has participant set
`{a, b}`: the handler's find-or-create never creates a duplicate for a pair
that already has an active chat. -/
theorem claim_C9_at_most_one_private_chat_per_pair
    (evs : List (Nat × Nat)) (a b : Nat) :
    pairCount (runJoins evs) a b ≤ 1 := by
  unfold runJoins
  exact runJoins_invariant evs [] (fun x y => by simp [pairCount]) a b

/-! C7: the stale-disconnect guard. -/

/-- Deleting a key from the in-memory map removes every binding of that
key. -/
theorem mapGet_mapDelete (m : List (Nat × Nat)) (k : Nat) :
    mapGet (mapDelete m k) k = none := by
  have hfind : (mapDelete m k).find? (fun p => p.fst == k) = none := by
    apply List.find?_eq_none.mpr
    intro x hx
    simp only [mapDelete] at hx
    have hx2 := (List.mem_filter.mp hx).2
    simpa using hx2
  unfold mapGet
  rw [hfind]
  rfl

/-- C7 (amended): on disconnect the stale-write guard protects only the
presence record's stored connection handle.  The identity's registry entry
is deleted and the presence status is reset to offline unconditionally,
even when the stored handle belongs to a newer connection; only the stored
`socketId` survives (it is cleared solely when it equals the disconnecting
handle). -/
theorem claim_C7_amended_stale_guard (st : RtState) (u s s2 now : Nat)
    (p : PresenceRec) (hmem : p ∈ st.presences) (hu : p.user = u)
    (hsock : p.socketId = some s2) (hne : s2 ≠ s) :
    mapGet (socketDisconnect st u s now).activeUsers u = none ∧
    { p with status := "offline", lastActive := now } ∈
      (socketDisconnect st u s now).presences := by
  constructor
  · exact mapGet_mapDelete st.activeUsers u
  · unfold socketDisconnect
    have hcond : (p.user == u) = true := by simp [hu]
    have hrec : ({ p with status := "offline", lastActive := now } : PresenceRec) =
        (fun q => if q.user == u then
          { q with
            status := "offline",
            lastActive := now,
            socketId := if q.socketId == some s then none else q.socketId }
        else q) p := by
      simp [hcond]
      rw [hsock]
      simp [hne]
    rw [hrec]
    exact List.mem_map_of_mem _ hmem

/-- Witness for C7: identity 7 connects twice (sockets 1 then 2); the
amended theorem applies to the stale disconnect of socket 1. -/
theorem claim_C7_witness :
    mapGet (socketDisconnect
      (socketConnect (socketConnect ⟨[], [], []⟩ 7 1 100) 7 2 101) 7 1 102).activeUsers 7 =
      none ∧
    (⟨7, "offline", 102, some 2⟩ : PresenceRec) ∈
      (socketDisconnect
        (socketConnect (socketConnect ⟨[], [], []⟩ 7 1 100) 7 2 101) 7 1 102).presences :=
  claim_C7_amended_stale_guard
    (socketConnect (socketConnect ⟨[], [], []⟩ 7 1 100) 7 2 101) 7 1 2 102
    ⟨7, "online", 101, some 2⟩ (by decide) rfl rfl (by decide)

/-! C3: when the realtime send persists a ChatNotification. -/

/-- C3 (amended): on every successful realtime send — private or group — a
`new_message` ChatNotification for a recipient (the private-chat peer, or a
non-sender group member) is persisted exactly when that recipient has a
registered live connection that is not joined to the chat room; in
particular a fully offline recipient (no `activeUsers` entry) gets no
persisted notification. -/
theorem claim_C3_amended_notification_guard (st : ChatState) (env : RtEnv)
    (u r cid gid : Nat) (uname roomId roomIdG text : String)
    (atts : List Attachment) (now fid : Nat)
    (chat : PrivateChat) (grp : ChatGroup) (um : GroupMember)
    (hroom : roomId ≠ "") (hroomG : roomIdG ≠ "") (htext : text ≠ "")
    (hfind : st.privateChats.find? (fun c => c.pcId == cid) = some chat)
    (hblock : chat.isBlocked r = false)
    (hfindG : st.groups.find? (fun g =>
      g.gid == gid && g.members.any (fun m => m.user == u) && g.isActive) = some grp)
    (hmemG : grp.members.find? (fun m => m.user == u) = some um)
    (hpermG : (um.role == "admin" || grp.settings.sendMessages == "all_members") = true) :
    (∃ st2, socketPrivateMessage st env u uname roomId r text cid atts now fid =
        Except.ok st2 ∧
      st2.messages = st.messages ++ [⟨fid, u, some r, none, text, "private", [u, r],
        pickAttachmentFields atts, [⟨u, now⟩], now⟩] ∧
      st2.notifications = st.notifications ++
        (if rtShouldNotify env r roomId then
          [⟨r, "new_message", some u, some fid, some chat.pcId, some "PrivateChat", none,
            uname ++ " sent you a message", msgPreview text, false, none⟩]
         else []) ∧
      (env.socketOf r = none → st2.notifications = st.notifications)) ∧
    (∃ st3, socketGroupMessage st env u uname roomIdG gid text atts now fid =
        Except.ok st3 ∧
      st3.messages = st.messages ++ [⟨fid, u, none, some gid, text, "group",
        grp.members.map (fun m => m.user), pickAttachmentFields atts, [⟨u, now⟩], now⟩] ∧
      st3.notifications = st.notifications ++
        ((grp.members.map (fun m => m.user)).filter (fun i => i != u)).filterMap
          (fun i => if rtShouldNotify env i roomIdG then
            some ⟨i, "new_message", some u, some fid, some gid, some "ChatGroup",
              some grp.name, uname ++ " sent a message in " ++ grp.name,
              msgPreview text, false, none⟩
           else none) ∧
      ((∀ i ∈ (grp.members.map (fun m => m.user)).filter (fun i => i != u),
          env.socketOf i = none) →
        st3.notifications = st.notifications)) := by
  have hgid : grp.gid = gid := by
    have hp := List.find?_some hfindG
    simp only [Bool.and_eq_true, beq_iff_eq] at hp
    exact hp.1.1
  subst hgid
  constructor
  · unfold socketPrivateMessage
    rw [if_neg (not_or.mpr ⟨hroom, htext⟩)]
    simp only [hfind, hblock]
    refine ⟨_, rfl, rfl, rfl, ?_⟩
    intro hoff
    simp [rtShouldNotify, hoff]
  · unfold socketGroupMessage
    rw [if_neg (not_or.mpr ⟨hroomG, htext⟩)]
    simp only [hfindG, hmemG, hpermG]
    refine ⟨_, rfl, rfl, rfl, ?_⟩
    intro hoff
    have hnil : ((grp.members.map (fun m => m.user)).filter (fun i => i != u)).filterMap
        (fun i => if rtShouldNotify env i roomIdG then
          some (⟨i, "new_message", some u, some fid, some grp.gid, some "ChatGroup",
            some grp.name, uname ++ " sent a message in " ++ grp.name,
            msgPreview text, false, none⟩ : ChatNotification)
         else none) = [] := by
      apply List.filterMap_eq_nil_iff.mpr
      intro i hi
      have hsn : rtShouldNotify env i roomIdG = false := by
        unfold rtShouldNotify
        rw [hoff i hi]
      rw [hsn]
      simp
    rw [hnil]
    simp

/-- Witness for C3: sending "hi" in chat 5 (peer 2 fully offline) and in
group 7 (the only other member, 2, fully offline) persists the messages and
no notification on either realtime path. -/
theorem claim_C3_witness :
    (∃ st2, socketPrivateMessage exSt exEnv 1 "alice" "private:1-2" 2 "hi" 5 [] 9 60 =
        Except.ok st2 ∧ st2.notifications = []) ∧
    (∃ st3, socketGroupMessage exSt exEnv 1 "alice" "group:7" 7 "hi" [] 9 60 =
        Except.ok st3 ∧ st3.notifications = []) := by
  obtain ⟨⟨st2, hok2, hmsg2, hnot2, hoff2⟩, ⟨st3, hok3, hmsg3, hnot3, hoff3⟩⟩ :=
    claim_C3_amended_notification_guard exSt exEnv 1 2 5 7 "alice" "private:1-2"
      "group:7" "hi" [] 9 60 exChat12 exGroup ⟨1, "admin", 1, 1⟩
      (by decide) (by decide) (by decide) rfl rfl rfl rfl rfl
  exact ⟨⟨st2, hok2, hoff2 rfl⟩, ⟨st3, hok3, hoff3 (by decide)⟩⟩

/-! C5: empty-text validation per send path. -/

/-- C5 (amended): the HTTP send accepts empty text when at least one
attachment is present (and rejects empty text with no attachments), but
both realtime handlers reject every empty-text send regardless of
attachments, because their input guard checks `!text`. -/
theorem claim_C5_amended_empty_text (st : ChatState) (env : RtEnv)
    (u r cid : Nat) (uname roomId : String) (atts : List Attachment)
    (now fid : Nat) (chat : PrivateChat) (user : UserRec)
    (hatts : atts ≠ [])
    (huser : findUser st u = some user)
    (hfind : st.privateChats.find? (fun c =>
      c.pcId == cid && c.participants.contains u && c.isActive) = some chat)
    (hrec : chat.participants.find? (fun i => i != u) = some r)
    (hblock : chat.isBlocked r = false) :
    (socketPrivateMessage st env u uname roomId r "" cid atts now fid =
      Except.error (ApiError.validation "Invalid message data")) ∧
    (socketGroupMessage st env u uname roomId cid "" atts now fid =
      Except.error (ApiError.validation "Invalid message data")) ∧
    (sendMessage st u cid "private" "" [] now fid =
      Except.error (ApiError.validation "Message must contain either text or attachments")) ∧
    ∃ st2, sendMessage st u cid "private" "" atts now fid = Except.ok st2 ∧
      st2.messages = st.messages ++ [⟨fid, u, some r, none, "", "private", chat.participants,
        pickAttachmentFields (fixAttachmentUrls atts), [⟨u, now⟩], now⟩] := by
  refine ⟨?_, ?_, ?_, ?_⟩
  · unfold socketPrivateMessage
    rw [if_pos (Or.inr rfl)]
  · unfold socketGroupMessage
    rw [if_pos (Or.inr rfl)]
  · unfold sendMessage
    rw [if_neg (by decide), if_pos ⟨rfl, rfl⟩]
  · unfold sendMessage
    rw [if_neg (by decide), if_neg (fun hand => hatts hand.2),
      if_neg (by decide)]
    simp only [huser, hfind, hrec, hblock]
    rw [if_pos trivial, if_neg (by decide)]
    exact ⟨_, rfl, rfl⟩

/-- Witness for C5: sending empty text with one attachment in chat 5 is
rejected on the realtime path and accepted on the HTTP path. -/
theorem claim_C5_witness :
    socketPrivateMessage exSt exEnv 1 "alice" "private:1-2" 2 "" 5 [exAtt] 9 60 =
      Except.error (ApiError.validation "Invalid message data") ∧
    (sendMessage exSt 1 5 "private" "" [exAtt] 9 60).isOk = true := by
  obtain ⟨h1, h2, h3, st2, hok, hmsg⟩ :=
    claim_C5_amended_empty_text exSt exEnv 1 2 5 "alice" "private:1-2" [exAtt] 9 60
      exChat12 ⟨1, "alice"⟩ (by decide) rfl rfl rfl rfl
  refine ⟨h1, ?_⟩
  rw [hok]
  rfl


/-! C1: agreement and divergence of the HTTP and realtime send paths. -/

/-- `fixAttachmentUrls` really is the identity. -/
theorem fixAttachmentUrls_eq (atts : List Attachment) : fixAttachmentUrls atts = atts := by
  unfold fixAttachmentUrls
  split
  · rfl
  · have hfun : (fun att : Attachment => { att with url := att.url }) =
        fun att : Attachment => att := by
      funext a
      cases a
      rfl
    rw [hfun]
    exact List.map_id' atts

/-- The private-path half of the C1 agreement, factored out. -/
theorem claim_C1_private_half (st : ChatState) (env : RtEnv) (u r cid : Nat)
    (uname roomId text : String) (atts : List Attachment) (now fid : Nat)
    (chat : PrivateChat)
    (huser : findUser st u = some ⟨u, uname⟩)
    (hfindH : st.privateChats.find? (fun c =>
      c.pcId == cid && c.participants.contains u && c.isActive) = some chat)
    (hfindS : st.privateChats.find? (fun c => c.pcId == cid) = some chat)
    (hrec : chat.participants.find? (fun i => i != u) = some r)
    (hparts : chat.participants = [u, r] ∨ chat.participants = [r, u])
    (hblock : chat.isBlocked r = false)
    (htext : text ≠ "") (hroom : roomId ≠ "") :
    ∃ stH stS mH mS,
      sendMessage st u cid "private" text atts now fid = Except.ok stH ∧
      socketPrivateMessage st env u uname roomId r text cid atts now fid = Except.ok stS ∧
      stH.privateChats = stS.privateChats ∧
      stH.groups = stS.groups ∧
      stH.users = stS.users ∧
      stH.messages = st.messages ++ [mH] ∧
      stS.messages = st.messages ++ [mS] ∧
      mH.sender = mS.sender ∧ mH.recipient = mS.recipient ∧ mH.group = mS.group ∧
      mH.text = mS.text ∧ mH.chatType = mS.chatType ∧
      mH.attachments = mS.attachments ∧ mH.readBy = mS.readBy ∧
      mH.createdAt = mS.createdAt ∧ mH.participants.Perm mS.participants ∧
      (∃ nf, stH.notifications = st.notifications ++ [nf] ∧
        stS.notifications = st.notifications ++
          (if rtShouldNotify env r roomId then [nf] else [])) := by
  have hH : sendMessage st u cid "private" text atts now fid = Except.ok { st with
      messages := st.messages ++ [⟨fid, u, some r, none, text, "private", chat.participants,
        pickAttachmentFields (fixAttachmentUrls atts), [⟨u, now⟩], now⟩],
      privateChats := st.privateChats.map (fun c =>
        if c.pcId == chat.pcId then { c with lastMessage := some ⟨text, u, now⟩ } else c),
      notifications := st.notifications ++ [⟨r, "new_message", some u, some fid,
        some chat.pcId, some "PrivateChat", none, uname ++ " sent you a message",
        msgPreview text, false, none⟩] } := by
    unfold sendMessage
    rw [if_neg (by decide), if_neg (fun hand => htext hand.1), if_neg (by decide)]
    simp only [huser, hfindH, hrec, hblock]
    rw [if_pos trivial, if_neg (by decide)]
  have hS : socketPrivateMessage st env u uname roomId r text cid atts now fid =
      Except.ok { st with
      messages := st.messages ++ [⟨fid, u, some r, none, text, "private", [u, r],
        pickAttachmentFields atts, [⟨u, now⟩], now⟩],
      privateChats := st.privateChats.map (fun c =>
        if c.pcId == chat.pcId then { c with lastMessage := some ⟨text, u, now⟩ } else c),
      notifications := st.notifications ++
        (if rtShouldNotify env r roomId then
          [⟨r, "new_message", some u, some fid, some chat.pcId, some "PrivateChat", none,
            uname ++ " sent you a message", msgPreview text, false, none⟩]
         else []) } := by
    unfold socketPrivateMessage
    rw [if_neg (not_or.mpr ⟨hroom, htext⟩)]
    simp only [hfindS, hblock]
    rw [if_neg (by decide)]
  refine ⟨_, _, _, _, hH, hS, rfl, rfl, rfl, rfl, rfl, rfl, rfl, rfl, rfl, rfl,
    ?_, rfl, rfl, ?_, ⟨_, rfl, rfl⟩⟩
  · rw [fixAttachmentUrls_eq]
  · rcases hparts with hp | hp
    · rw [hp]
    · rw [hp]
      exact List.Perm.swap u r []

/-- C1 (amended): where the HTTP controller and the realtime handlers all
accept a send (non-empty text — the realtime input guard rejects empty text
— chat or group found, permission and block checks passing): on the private
paths the persisted Message agrees up to the order of the denormalized
participant pair (HTTP copies the chat's stored order, the socket writes
sender first) and the `lastMessage` cache update is the same; on the group
paths the persisted Message documents and cache updates are identical.  But
the persisted ChatNotification sets differ on both: HTTP always writes one
`new_message` notification per recipient (the private peer, every
non-sender group member), while the realtime handlers write exactly that
same notification for exactly those recipients with a live connection not
joined to the room, and none for the rest. -/
theorem claim_C1_amended_send_paths (st : ChatState) (env : RtEnv)
    (u r cid gid : Nat) (uname roomId roomIdG text : String)
    (atts : List Attachment) (now fid : Nat)
    (chat : PrivateChat) (grp : ChatGroup) (um : GroupMember)
    (huser : findUser st u = some ⟨u, uname⟩)
    (hfindH : st.privateChats.find? (fun c =>
      c.pcId == cid && c.participants.contains u && c.isActive) = some chat)
    (hfindS : st.privateChats.find? (fun c => c.pcId == cid) = some chat)
    (hrec : chat.participants.find? (fun i => i != u) = some r)
    (hparts : chat.participants = [u, r] ∨ chat.participants = [r, u])
    (hblock : chat.isBlocked r = false)
    (hfindG : st.groups.find? (fun g =>
      g.gid == gid && g.members.any (fun m => m.user == u) && g.isActive) = some grp)
    (hmemG : grp.members.find? (fun m => m.user == u) = some um)
    (hpermG : (um.role == "admin" || grp.settings.sendMessages == "all_members") = true)
    (htext : text ≠ "") (hroom : roomId ≠ "") (hroomG : roomIdG ≠ "") :
    (∃ stH stS mH mS,
      sendMessage st u cid "private" text atts now fid = Except.ok stH ∧
      socketPrivateMessage st env u uname roomId r text cid atts now fid = Except.ok stS ∧
      stH.privateChats = stS.privateChats ∧
      stH.groups = stS.groups ∧
      stH.users = stS.users ∧
      stH.messages = st.messages ++ [mH] ∧
      stS.messages = st.messages ++ [mS] ∧
      mH.sender = mS.sender ∧ mH.recipient = mS.recipient ∧ mH.group = mS.group ∧
      mH.text = mS.text ∧ mH.chatType = mS.chatType ∧
      mH.attachments = mS.attachments ∧ mH.readBy = mS.readBy ∧
      mH.createdAt = mS.createdAt ∧ mH.participants.Perm mS.participants ∧
      (∃ nf, stH.notifications = st.notifications ++ [nf] ∧
        stS.notifications = st.notifications ++
          (if rtShouldNotify env r roomId then [nf] else []))) ∧
    (∃ stHG stSG,
      sendMessage st u gid "group" text atts now fid = Except.ok stHG ∧
      socketGroupMessage st env u uname roomIdG gid text atts now fid = Except.ok stSG ∧
      stHG.messages = stSG.messages ∧
      stHG.groups = stSG.groups ∧
      stHG.privateChats = stSG.privateChats ∧
      stHG.users = stSG.users ∧
      stHG.messages = st.messages ++ [⟨fid, u, none, some gid, text, "group",
        grp.members.map (fun m => m.user), pickAttachmentFields atts, [⟨u, now⟩], now⟩] ∧
      (∃ nfG : Nat → ChatNotification,
        stHG.notifications = st.notifications ++
          ((grp.members.map (fun m => m.user)).filter (fun i => i != u)).map nfG ∧
        stSG.notifications = st.notifications ++
          ((grp.members.map (fun m => m.user)).filter (fun i => i != u)).filterMap
            (fun i => if rtShouldNotify env i roomIdG then some (nfG i) else none))) := by
  have hgid : grp.gid = gid := by
    have hp := List.find?_some hfindG
    simp only [Bool.and_eq_true, beq_iff_eq] at hp
    exact hp.1.1
  subst hgid
  constructor
  · exact claim_C1_private_half st env u r cid uname roomId text atts now fid chat
      huser hfindH hfindS hrec hparts hblock htext hroom
  · have hHG : sendMessage st u grp.gid "group" text atts now fid = Except.ok { st with
        messages := st.messages ++ [⟨fid, u, none, some grp.gid, text, "group",
          grp.members.map (fun m => m.user),
          pickAttachmentFields (fixAttachmentUrls atts), [⟨u, now⟩], now⟩],
        groups := st.groups.map (fun g =>
          if g.gid == grp.gid then { g with lastMessage := some ⟨text, u, now⟩ } else g),
        notifications := st.notifications ++
          ((grp.members.map (fun m => m.user)).filter (fun i => i != u)).map
            (fun memberId => ⟨memberId, "new_message", some u, some fid, some grp.gid,
              some "ChatGroup", some grp.name,
              uname ++ " sent a message in " ++ grp.name, msgPreview text, false, none⟩) } := by
      unfold sendMessage
      rw [if_neg (by decide), if_neg (fun hand => htext hand.1), if_neg (by decide)]
      simp only [huser, hfindG, hmemG, hpermG]
      simp
    have hSG : socketGroupMessage st env u uname roomIdG grp.gid text atts now fid =
        Except.ok { st with
        messages := st.messages ++ [⟨fid, u, none, some grp.gid, text, "group",
          grp.members.map (fun m => m.user), pickAttachmentFields atts, [⟨u, now⟩], now⟩],
        groups := st.groups.map (fun g =>
          if g.gid == grp.gid then { g with lastMessage := some ⟨text, u, now⟩ } else g),
        notifications := st.notifications ++
          ((grp.members.map (fun m => m.user)).filter (fun i => i != u)).filterMap
            (fun memberId => if rtShouldNotify env memberId roomIdG then
              some ⟨memberId, "new_message", some u, some fid, some grp.gid,
                some "ChatGroup", some grp.name,
                uname ++ " sent a message in " ++ grp.name, msgPreview text, false, none⟩
             else none) } := by
      unfold socketGroupMessage
      rw [if_neg (not_or.mpr ⟨hroomG, htext⟩)]
      simp only [hfindG, hmemG, hpermG]
      simp
    refine ⟨_, _, hHG, hSG, ?_, rfl, rfl, rfl, ?_, ⟨_, rfl, rfl⟩⟩
    · simp [fixAttachmentUrls_eq]
    · simp [fixAttachmentUrls_eq]

/-- Witness for C1: all four paths accept the send of "hey" — HTTP and
realtime in private chat 5, HTTP and realtime in group 7. -/
theorem claim_C1_witness :
    (sendMessage exSt 1 5 "private" "hey" [] 9 60).isOk = true ∧
    (socketPrivateMessage exSt exEnv 1 "alice" "private:1-2" 2 "hey" 5 [] 9 60).isOk = true ∧
    (sendMessage exSt 1 7 "group" "hey" [] 9 60).isOk = true ∧
    (socketGroupMessage exSt exEnv 1 "alice" "group:7" 7 "hey" [] 9 60).isOk = true := by
  obtain ⟨⟨stH, stS, mH, mS, hH, hS, _⟩, ⟨stHG, stSG, hHG, hSG, _⟩⟩ :=
    claim_C1_amended_send_paths exSt exEnv 1 2 5 7 "alice" "private:1-2" "group:7"
      "hey" [] 9 60 exChat12 exGroup ⟨1, "admin", 1, 1⟩ rfl rfl rfl rfl (Or.inl rfl)
      rfl rfl rfl rfl (by decide) (by decide) (by decide)
  rw [hH, hS, hHG, hSG]
  exact ⟨rfl, rfl, rfl, rfl⟩

/-! C6: the cached lastMessage after a deletion. -/

/-- C6 (amended): after `deleteMessage` by the original sender succeeds,
the message is removed; for a private message the cache of the first active
chat containing the deleted message's participants is recomputed to the
most recent remaining message whose participant list contains them
(whatever its chat type), and for a group message to the most recent
remaining message of the same group; when no such message remains the
cached `lastMessage` is left unchanged — it is not cleared to null. -/
theorem claim_C6_amended_last_message (st : ChatState) (u midX : Nat) (msg : Message)
    (usr : UserRec)
    (huser : findUser st u = some usr)
    (hfind : st.messages.find? (fun m => m.mid == midX) = some msg)
    (hsender : msg.sender = u) :
    (msg.chatType = "private" →
      (latestMessage ((st.messages.filter (fun m => m.mid != midX)).filter
          (fun m => msg.participants.all (fun p => m.participants.contains p))) = none →
        deleteMessage st u midX = Except.ok { st with
          messages := st.messages.filter (fun m => m.mid != midX) }) ∧
      (∀ lm chat,
        latestMessage ((st.messages.filter (fun m => m.mid != midX)).filter
          (fun m => msg.participants.all (fun p => m.participants.contains p))) = some lm →
        st.privateChats.find? (fun c =>
          msg.participants.all (fun p => c.participants.contains p) && c.isActive) = some chat →
        deleteMessage st u midX = Except.ok { st with
          messages := st.messages.filter (fun m => m.mid != midX),
          privateChats := st.privateChats.map (fun c =>
            if c.pcId == chat.pcId then
              { c with lastMessage := some ⟨lm.text, lm.sender, lm.createdAt⟩ } else c) })) ∧
    (msg.chatType = "group" → ∀ gid2, msg.group = some gid2 →
      (latestMessage ((st.messages.filter (fun m => m.mid != midX)).filter
          (fun m => m.group == some gid2)) = none →
        deleteMessage st u midX = Except.ok { st with
          messages := st.messages.filter (fun m => m.mid != midX) }) ∧
      (∀ lm grp,
        latestMessage ((st.messages.filter (fun m => m.mid != midX)).filter
          (fun m => m.group == some gid2)) = some lm →
        st.groups.find? (fun g => g.gid == gid2) = some grp →
        deleteMessage st u midX = Except.ok { st with
          messages := st.messages.filter (fun m => m.mid != midX),
          groups := st.groups.map (fun g =>
            if g.gid == grp.gid then
              { g with lastMessage := some ⟨lm.text, lm.sender, lm.createdAt⟩ } else g) })) := by
  constructor
  · intro ht
    constructor
    · intro hnone
      unfold deleteMessage
      simp only [huser, hfind, hsender, bne_self_eq_false, Bool.false_eq_true, if_false, ht]
      simp only [hnone]
      simp
    · intro lm chat hsome hchat
      unfold deleteMessage
      simp only [huser, hfind, hsender, bne_self_eq_false, Bool.false_eq_true, if_false, ht]
      simp only [hsome, hchat]
      simp
  · intro ht gid2 hg
    constructor
    · intro hnone
      unfold deleteMessage
      simp only [huser, hfind, hsender, bne_self_eq_false, Bool.false_eq_true, if_false, ht]
      simp only [hg, hnone]
      simp
    · intro lm grp hsome hgrp
      unfold deleteMessage
      simp only [huser, hfind, hsender, bne_self_eq_false, Bool.false_eq_true, if_false, ht]
      simp only [hg, hsome, hgrp]
      simp

/-- Witness for C6: deleting message 51 — the only message of chat 5 —
leaves `privateChats` (and thus the stale cache) untouched, and deleting
the newest of two messages recomputes the cache to the older one. -/
theorem claim_C6_witness :
    deleteMessage exSt6 1 51 = Except.ok { exSt6 with
      messages := exSt6.messages.filter (fun m => m.mid != 51) } ∧
    deleteMessage exSt6b 1 51 = Except.ok { exSt6b with
      messages := exSt6b.messages.filter (fun m => m.mid != 51),
      privateChats := exSt6b.privateChats.map (fun c =>
        if c.pcId == exChatCached.pcId then
          { c with lastMessage := some ⟨exMsgOld.text, exMsgOld.sender, exMsgOld.createdAt⟩ }
        else c) } := by
  constructor
  · exact ((claim_C6_amended_last_message exSt6 1 51 exMsgOnly ⟨1, "alice"⟩
      rfl rfl rfl).1 rfl).1 rfl
  · exact ((claim_C6_amended_last_message exSt6b 1 51 exMsgOnly ⟨1, "alice"⟩
      rfl rfl rfl).1 rfl).2 exMsgOld exChatCached rfl rfl


/-! C8: directional blocking. -/

/-- C8: blocking is directional (spec-modelled `isBlocked`: the
participant-status flag of a user records that this user has blocked the
other).  If recipient `b` has blocked sender `a`, then `a`'s send to `b`
fails with the authorization error on both the HTTP and realtime paths and
no state is persisted, while `b`'s send to `a` still succeeds and persists
the message. -/
theorem claim_C8_directional_block (st : ChatState) (env : RtEnv) (a b cid : Nat)
    (aname bname roomId text : String) (atts : List Attachment) (now fid : Nat)
    (chat : PrivateChat)
    (husera : findUser st a = some ⟨a, aname⟩)
    (huserb : findUser st b = some ⟨b, bname⟩)
    (hfindA : st.privateChats.find? (fun c =>
      c.pcId == cid && c.participants.contains a && c.isActive) = some chat)
    (hfindB : st.privateChats.find? (fun c =>
      c.pcId == cid && c.participants.contains b && c.isActive) = some chat)
    (hfindId : st.privateChats.find? (fun c => c.pcId == cid) = some chat)
    (hrecA : chat.participants.find? (fun i => i != a) = some b)
    (hrecB : chat.participants.find? (fun i => i != b) = some a)
    (hBblocked : chat.isBlocked b = true)
    (hAnot : chat.isBlocked a = false)
    (htext : text ≠ "") (hroom : roomId ≠ "") :
    (sendMessage st a cid "private" text atts now fid =
      Except.error (ApiError.forbidden "You cannot send messages to this user")) ∧
    (socketPrivateMessage st env a aname roomId b text cid atts now fid =
      Except.error (ApiError.forbidden "You cannot send messages to this user")) ∧
    (∃ st2, sendMessage st b cid "private" text atts now fid = Except.ok st2 ∧
      st2.messages = st.messages ++ [⟨fid, b, some a, none, text, "private", chat.participants,
        pickAttachmentFields (fixAttachmentUrls atts), [⟨b, now⟩], now⟩]) ∧
    (∃ st3, socketPrivateMessage st env b bname roomId a text cid atts now fid =
      Except.ok st3) := by
  refine ⟨?_, ?_, ?_, ?_⟩
  · unfold sendMessage
    rw [if_neg (by decide), if_neg (fun hand => htext hand.1), if_neg (by decide)]
    simp only [husera, hfindA, hrecA, hBblocked]
    simp
  · unfold socketPrivateMessage
    rw [if_neg (not_or.mpr ⟨hroom, htext⟩)]
    simp only [hfindId, hBblocked]
    simp
  · unfold sendMessage
    rw [if_neg (by decide), if_neg (fun hand => htext hand.1), if_neg (by decide)]
    simp only [huserb, hfindB, hrecB, hAnot]
    rw [if_pos trivial, if_neg (by decide)]
    exact ⟨_, rfl, rfl⟩
  · unfold socketPrivateMessage
    rw [if_neg (not_or.mpr ⟨hroom, htext⟩)]
    simp only [hfindId, hAnot]
    rw [if_neg (by decide)]
    exact ⟨_, rfl⟩

/-- Witness for C8: in `exStBlocked` user 2 has blocked user 1, so 1 cannot
send to 2 but 2 can send to 1. -/
theorem claim_C8_witness :
    sendMessage exStBlocked 1 5 "private" "yo" [] 9 60 =
      Except.error (ApiError.forbidden "You cannot send messages to this user") ∧
    (sendMessage exStBlocked 2 5 "private" "yo" [] 9 60).isOk = true := by
  obtain ⟨h1, h2, ⟨st2, hok, hmsg⟩, h4⟩ :=
    claim_C8_directional_block exStBlocked exEnv 1 2 5 "alice" "bob" "private:1-2" "yo"
      [] 9 60 exChatBlocked rfl rfl rfl rfl rfl rfl rfl rfl rfl (by decide) (by decide)
  refine ⟨h1, ?_⟩
  rw [hok]
  rfl

/-! C10: the sender's read receipt at creation. -/

/-- A successful HTTP send appends exactly one message whose `readBy` holds
only the sender stamped at send time, and whose participants include the
sender; the users store is untouched. -/
theorem sendMessage_ok_shape (st : ChatState) (u cid : Nat) (ct text : String)
    (atts : List Attachment) (now fid : Nat) (st2 : ChatState)
    (h : sendMessage st u cid ct text atts now fid = Except.ok st2) :
    st2.users = st.users ∧
    ∃ m : Message, st2.messages = st.messages ++ [m] ∧ m.mid = fid ∧ m.sender = u ∧
      m.readBy = [⟨u, now⟩] ∧ m.participants.contains u = true := by
  unfold sendMessage at h
  split at h
  · exact Except.noConfusion h
  split at h
  · exact Except.noConfusion h
  split at h
  · exact Except.noConfusion h
  split at h
  · exact Except.noConfusion h
  rename_i user huser
  split at h
  · split at h
    · exact Except.noConfusion h
    rename_i chat hchat
    split at h
    · exact Except.noConfusion h
    rename_i r hrec
    split at h
    · exact Except.noConfusion h
    rename_i hnotblocked
    injection h with h2
    subst h2
    refine ⟨rfl, ⟨_, rfl, rfl, rfl, rfl, ?_⟩⟩
    have hpred := List.find?_some hchat
    simp only [Bool.and_eq_true] at hpred
    exact hpred.1.2
  · split at h
    · exact Except.noConfusion h
    rename_i group hgroup
    split at h
    · exact Except.noConfusion h
    rename_i userMember hmember
    split at h
    · injection h with h2
      subst h2
      refine ⟨rfl, ⟨_, rfl, rfl, rfl, rfl, ?_⟩⟩
      have hpred := List.find?_some hgroup
      simp only [Bool.and_eq_true] at hpred
      have hany := hpred.1.2
      simp only [List.any_eq_true] at hany
      obtain ⟨m, hm, hmu⟩ := hany
      have hmm : u ∈ group.members.map (fun m => m.user) := by
        refine List.mem_map.mpr ⟨m, hm, ?_⟩
        simpa using hmu.symm
      exact List.elem_eq_true_of_mem hmm
    · exact Except.noConfusion h

/-- Same shape for a successful `private:message` handler run. -/
theorem socketPrivateMessage_ok_shape (st : ChatState) (env : RtEnv) (u r cid : Nat)
    (uname roomId text : String) (atts : List Attachment) (now fid : Nat) (st2 : ChatState)
    (h : socketPrivateMessage st env u uname roomId r text cid atts now fid = Except.ok st2) :
    st2.users = st.users ∧
    ∃ m : Message, st2.messages = st.messages ++ [m] ∧ m.mid = fid ∧ m.sender = u ∧
      m.readBy = [⟨u, now⟩] ∧ m.participants.contains u = true := by
  unfold socketPrivateMessage at h
  split at h
  · exact Except.noConfusion h
  split at h
  · exact Except.noConfusion h
  rename_i chat hchat
  split at h
  · exact Except.noConfusion h
  injection h with h2
  subst h2
  refine ⟨rfl, ⟨_, rfl, rfl, rfl, rfl, ?_⟩⟩
  simp

/-- Same shape for a successful `group:message` handler run. -/
theorem socketGroupMessage_ok_shape (st : ChatState) (env : RtEnv) (u gid : Nat)
    (uname roomId text : String) (atts : List Attachment) (now fid : Nat) (st2 : ChatState)
    (h : socketGroupMessage st env u uname roomId gid text atts now fid = Except.ok st2) :
    st2.users = st.users ∧
    ∃ m : Message, st2.messages = st.messages ++ [m] ∧ m.mid = fid ∧ m.sender = u ∧
      m.readBy = [⟨u, now⟩] ∧ m.participants.contains u = true := by
  unfold socketGroupMessage at h
  split at h
  · exact Except.noConfusion h
  split at h
  · exact Except.noConfusion h
  rename_i group hgroup
  split at h
  · exact Except.noConfusion h
  rename_i userMember hmember
  split at h
  · injection h with h2
    subst h2
    refine ⟨rfl, ⟨_, rfl, rfl, rfl, rfl, ?_⟩⟩
    have hpred := List.find?_some hgroup
    simp only [Bool.and_eq_true] at hpred
    have hany := hpred.1.2
    simp only [List.any_eq_true] at hany
    obtain ⟨m, hm, hmu⟩ := hany
    have hmm : u ∈ group.members.map (fun m => m.user) := by
      refine List.mem_map.mpr ⟨m, hm, ?_⟩
      simpa using hmu.symm
    exact List.elem_eq_true_of_mem hmm
  · exact Except.noConfusion h

/-- `markAsRead` leaves the state unchanged when the target message already
carries a receipt from the actor. -/
theorem markAsRead_already_read (st2 : ChatState) (stOld : List Message)
    (u fid t2 : Nat) (m : Message) (usr : UserRec)
    (hfindu : findUser st2 u = some usr)
    (hmsgs : st2.messages = stOld ++ [m])
    (hfresh : ∀ m2 ∈ stOld, m2.mid ≠ fid)
    (hmid : m.mid = fid) (hcont : m.participants.contains u = true)
    (hread : m.readBy.any (fun r => r.user == u) = true) :
    markAsRead st2 u fid t2 = Except.ok st2 := by
  unfold markAsRead
  simp only [hfindu]
  have hfindmsg : st2.messages.find?
      (fun mm => mm.mid == fid && mm.participants.contains u) = some m := by
    rw [hmsgs, List.find?_append]
    have h1 : stOld.find? (fun mm => mm.mid == fid && mm.participants.contains u) = none := by
      apply List.find?_eq_none.mpr
      intro x hx
      simp only [Bool.and_eq_true, beq_iff_eq, not_and]
      intro hmid2
      exact absurd hmid2 (hfresh x hx)
    have hmem : u ∈ m.participants := by simpa using hcont
    rw [h1]
    simp [List.find?, hmid, hmem]
  simp only [hfindmsg]
  rw [if_pos hread]

/-- C10: every Message persisted by any send path (HTTP for both chat
types, realtime private, realtime group) is created with `readBy`
containing exactly the sender stamped at send time, so it is never unread
for its own sender, and a subsequent `markAsRead` by the sender (with the
message id fresh in the prior store) returns the state unchanged. -/
theorem claim_C10_sender_read_receipt (st : ChatState) (env : RtEnv)
    (u cid gid rid : Nat) (ct text roomId uname : String) (atts : List Attachment)
    (now fid t2 : Nat) (usr : UserRec)
    (huser : findUser st u = some usr)
    (hfresh : ∀ m ∈ st.messages, m.mid ≠ fid) :
    (∀ st2, sendMessage st u cid ct text atts now fid = Except.ok st2 →
      (∃ m, st2.messages = st.messages ++ [m] ∧ m.readBy = [⟨u, now⟩]) ∧
      markAsRead st2 u fid t2 = Except.ok st2) ∧
    (∀ st2, socketPrivateMessage st env u uname roomId rid text cid atts now fid =
        Except.ok st2 →
      (∃ m, st2.messages = st.messages ++ [m] ∧ m.readBy = [⟨u, now⟩]) ∧
      markAsRead st2 u fid t2 = Except.ok st2) ∧
    (∀ st2, socketGroupMessage st env u uname roomId gid text atts now fid =
        Except.ok st2 →
      (∃ m, st2.messages = st.messages ++ [m] ∧ m.readBy = [⟨u, now⟩]) ∧
      markAsRead st2 u fid t2 = Except.ok st2) := by
  have huser2 : ∀ st2 : ChatState, st2.users = st.users → findUser st2 u = some usr := by
    intro st2 hu
    unfold findUser at huser ⊢
    rw [hu]
    exact huser
  refine ⟨?_, ?_, ?_⟩
  · intro st2 h
    obtain ⟨hu, m, hms, hmid, _, hrb, hcont⟩ :=
      sendMessage_ok_shape st u cid ct text atts now fid st2 h
    refine ⟨⟨m, hms, hrb⟩, ?_⟩
    exact markAsRead_already_read st2 st.messages u fid t2 m usr (huser2 st2 hu)
      hms hfresh hmid hcont (by simp [hrb])
  · intro st2 h
    obtain ⟨hu, m, hms, hmid, _, hrb, hcont⟩ :=
      socketPrivateMessage_ok_shape st env u rid cid uname roomId text atts now fid st2 h
    refine ⟨⟨m, hms, hrb⟩, ?_⟩
    exact markAsRead_already_read st2 st.messages u fid t2 m usr (huser2 st2 hu)
      hms hfresh hmid hcont (by simp [hrb])
  · intro st2 h
    obtain ⟨hu, m, hms, hmid, _, hrb, hcont⟩ :=
      socketGroupMessage_ok_shape st env u gid uname roomId text atts now fid st2 h
    refine ⟨⟨m, hms, hrb⟩, ?_⟩
    exact markAsRead_already_read st2 st.messages u fid t2 m usr (huser2 st2 hu)
      hms hfresh hmid hcont (by simp [hrb])

/-- Witness for C10: applied to the concrete store, the HTTP send of "hey"
in chat 5 yields a state on which the sender's `markAsRead` is the
identity. -/
theorem claim_C10_witness :
    ∃ st2, sendMessage exSt 1 5 "private" "hey" [] 9 60 = Except.ok st2 ∧
      (∃ m, st2.messages = exSt.messages ++ [m] ∧ m.readBy = [⟨1, 9⟩]) ∧
      markAsRead st2 1 60 11 = Except.ok st2 := by
  obtain ⟨h1, h2, h3⟩ := claim_C10_sender_read_receipt exSt exEnv 1 5 7 2 "private"
    "hey" "private:1-2" "alice" [] 9 60 11 ⟨1, "alice"⟩ rfl (by decide)
  rcases hev : sendMessage exSt 1 5 "private" "hey" [] 9 60 with e | st2
  · have hok : (sendMessage exSt 1 5 "private" "hey" [] 9 60).isOk = true := rfl
    rw [hev] at hok
    exact Bool.noConfusion hok
  · exact ⟨st2, rfl, h1 st2 hev⟩

end ProjectH
